import Mathlib

/-!
Shallow embedding of the postgres-chatroom change-notification pipeline
(backend/services/postgresListener.js, class PostgresListener) together
with the database-side trigger function it installs (setupTriggers) and
the DDL semantics those statements rely on.

Modelling conventions:
  * JS callbacks are identified by reference; we model a callback as a
    numeric identity (CallbackId) plus an external behaviour oracle
    telling whether invoking it throws.
  * The JS Map used for the subscription registry is modelled as an
    insertion-ordered association list.
  * this.client is modelled as Option ClientStatus: none before any
    connect (this.client === null), some .live for a usable connection,
    some .dead for an ended / never-established connection whose queries
    reject.
  * External effects (queries sent, timers, entering connect) are
    recorded as an explicit Action trace; fallibility of the outside
    world (TCP connect, DDL, LISTEN) is an Env of boolean outcomes.
-/

namespace PostgresChatroom

/-! ### Event bus (methods on, emit, off, removeAllListeners of PostgresListener) -/

abbrev Topic := String
abbrev CallbackId := Nat

/-- this.listeners: Map from event name to array of callbacks, in insertion order. -/
abbrev Registry := List (Topic × List CallbackId)

/-- this.listeners.has(event) -/
def hasEvent (reg : Registry) (e : Topic) : Bool :=
  reg.any (fun p => p.1 == e)

/-- this.listeners.get(event), defaulting to the empty array when absent. -/
def getListeners (reg : Registry) (e : Topic) : List CallbackId :=
  match reg.find? (fun p => p.1 == e) with
  | some p => p.2
  | none => []

/-- In-place replacement of the callback array bound to key e (first matching entry). -/
def setEntry (reg : Registry) (e : Topic) (l : List CallbackId) : Registry :=
  match reg with
  | [] => []
  | p :: rest => if p.1 == e then (p.1, l) :: rest else p :: setEntry rest e l

/-- Method on(event, callback): create the entry if absent, then push the callback. -/
def onEvent (reg : Registry) (e : Topic) (cb : CallbackId) : Registry :=
  let reg1 := if hasEvent reg e then reg else reg ++ [(e, [])]
  setEntry reg1 e (getListeners reg1 e ++ [cb])

/-- Method off(event, callback): if the event has an entry, indexOf + splice
removes the first occurrence of the callback (splice is skipped when indexOf
returns -1, i.e. the array is unchanged). -/
def off (reg : Registry) (e : Topic) (cb : CallbackId) : Registry :=
  if hasEvent reg e then setEntry reg e ((getListeners reg e).erase cb) else reg

/-- Method removeAllListeners(event): delete one key, or clear the whole map. -/
def removeAllListeners (reg : Registry) (e : Option Topic) : Registry :=
  match e with
  | some ev => reg.filter (fun p => !(p.1 == ev))
  | none => []

/-- The forEach body of emit: invoke each callback with the data inside
try/catch; a throwing callback is caught (and logged) and iteration
continues with the next callback. The trace records, in invocation order,
each callback invoked, the data it was handed, and whether it threw. -/
def emitGo {α : Type} (throws : CallbackId → Bool) (data : α) :
    List CallbackId → List (CallbackId × α × Bool)
  | [] => []
  | cb :: rest =>
    if throws cb then
      (cb, data, true) :: emitGo throws data rest
    else
      (cb, data, false) :: emitGo throws data rest

/-- Method emit(event, data): if the registry has the event, deliver to its
callback array via forEach; the registry itself is only read (the catch
branch merely logs), so it is returned unchanged. -/
def emit {α : Type} (reg : Registry) (e : Topic) (throws : CallbackId → Bool)
    (data : α) : Registry × List (CallbackId × α × Bool) :=
  if hasEvent reg e then (reg, emitGo throws data (getListeners reg e))
  else (reg, [])

/-! ### Trigger function notify_message_change (installed by setupTriggers) -/

/-- A row of the messages table, with the columns the trigger reads. -/
structure MessageRow where
  id : Int
  group_uuid : String
  sender_uuid : String
  content : String
  file : Option String
  created_date : String
  is_deleted : Bool
deriving DecidableEq, Repr

/-- JSON scalar values as produced by json_build_object in the trigger. -/
inductive JsonVal where
  | jint (n : Int)
  | jstr (s : String)
  | jbool (b : Bool)
  | jnull
deriving DecidableEq, Repr

/-- A nullable text column serialises to JSON null or a JSON string. -/
def jfile : Option String → JsonVal
  | none => .jnull
  | some f => .jstr f

/-- A row-level statement on the messages table as seen by the AFTER ROW
trigger: TG_OP together with the OLD and/or NEW row it comes with. -/
inductive RowChange where
  | insert (newRow : MessageRow)
  | update (oldRow newRow : MessageRow)
  | delete (oldRow : MessageRow)
deriving DecidableEq, Repr

/-- json_build_object of the INSERT branch: all NEW-row fields. -/
def insertPayload (newRow : MessageRow) : List (String × JsonVal) :=
  [("operation", .jstr "INSERT"), ("table", .jstr "messages"),
   ("id", .jint newRow.id), ("group_uuid", .jstr newRow.group_uuid),
   ("sender_uuid", .jstr newRow.sender_uuid), ("content", .jstr newRow.content),
   ("file", jfile newRow.file), ("created_date", .jstr newRow.created_date),
   ("is_deleted", .jbool newRow.is_deleted)]

/-- json_build_object of the UPDATE branch: all NEW-row fields plus
old_id, old_content, old_is_deleted taken from the OLD row. -/
def updatePayload (oldRow newRow : MessageRow) : List (String × JsonVal) :=
  [("operation", .jstr "UPDATE"), ("table", .jstr "messages"),
   ("id", .jint newRow.id), ("group_uuid", .jstr newRow.group_uuid),
   ("sender_uuid", .jstr newRow.sender_uuid), ("content", .jstr newRow.content),
   ("file", jfile newRow.file), ("created_date", .jstr newRow.created_date),
   ("is_deleted", .jbool newRow.is_deleted),
   ("old_id", .jint oldRow.id), ("old_content", .jstr oldRow.content),
   ("old_is_deleted", .jbool oldRow.is_deleted)]

/-- json_build_object of the DELETE branch: only id, group_uuid,
sender_uuid from the OLD row (besides operation and table). -/
def deletePayload (oldRow : MessageRow) : List (String × JsonVal) :=
  [("operation", .jstr "DELETE"), ("table", .jstr "messages"),
   ("id", .jint oldRow.id), ("group_uuid", .jstr oldRow.group_uuid),
   ("sender_uuid", .jstr oldRow.sender_uuid)]

/-- Body of notify_message_change(): dispatch on TG_OP and build the
payload that pg_notify sends on the message_changes channel. -/
def notify_message_change : RowChange → List (String × JsonVal)
  | .insert newRow => insertPayload newRow
  | .update oldRow newRow => updatePayload oldRow newRow
  | .delete oldRow => deletePayload oldRow

/-! ### DDL semantics of setupTriggers -/

/-- The slice of the database schema that setupTriggers touches: the
names of installed functions, and the names of triggers bound to the
messages table (in creation order). -/
structure DbSchema where
  functions : List String
  messageTriggers : List String
deriving DecidableEq, Repr

/-- CREATE OR REPLACE FUNCTION: never errors; a function with that name
exists afterwards, and replacing an existing one adds no second copy. -/
def createOrReplaceFunction (s : DbSchema) (f : String) : DbSchema :=
  if f ∈ s.functions then s else { s with functions := s.functions ++ [f] }

/-- DROP TRIGGER IF EXISTS ... ON messages: never errors; removes the
trigger with that name when present. -/
def dropTriggerIfExists (s : DbSchema) (t : String) : DbSchema :=
  { s with messageTriggers := s.messageTriggers.erase t }

/-- CREATE TRIGGER ... ON messages: errors if a trigger with that name
already exists on the table, otherwise installs it. -/
def createTrigger (s : DbSchema) (t : String) : Except String DbSchema :=
  if t ∈ s.messageTriggers then .error "trigger already exists"
  else .ok { s with messageTriggers := s.messageTriggers ++ [t] }

/-- Method setupTriggers(): run createFunctionQuery (CREATE OR REPLACE
FUNCTION notify_message_change) then createTriggerQuery (DROP TRIGGER IF
EXISTS messages_notify_trigger ON messages; CREATE TRIGGER
messages_notify_trigger ...). Any error propagates (rethrown after
logging). -/
def setupTriggers (s : DbSchema) : Except String DbSchema :=
  let s1 := createOrReplaceFunction s "notify_message_change"
  let s2 := dropTriggerIfExists s1 "messages_notify_trigger"
  createTrigger s2 "messages_notify_trigger"

/-- The schema produced by init.sql: no notify function, no triggers on
the messages table. -/
def initDb : DbSchema := ⟨[], []⟩

/-- Running setupTriggers n times in a row starting from the clean schema. -/
def iterateSetup : Nat → Except String DbSchema
  | 0 => .ok initDb
  | n + 1 =>
    match iterateSetup n with
    | .ok s => setupTriggers s
    | .error e => .error e

/-- Each AFTER ... FOR EACH ROW trigger on messages fires once per row
statement, and each firing of the installed function performs exactly one
pg_notify; so the notifications emitted per committed row statement equal
the number of triggers installed on the table. -/
def notificationsPerStatement (s : DbSchema) : Nat :=
  s.messageTriggers.length

/-! ### Connection lifecycle of PostgresListener -/

/-- Status of the pg Client object held in this.client: live accepts
queries, dead is an ended or never-established connection whose queries
reject. -/
inductive ClientStatus where
  | live
  | dead
deriving DecidableEq, Repr

/-- The mutable fields of a PostgresListener instance. handlersInstalled
records whether startListening has registered the notification / error /
end handlers on the client (it does so only after LISTEN succeeds). -/
structure ListenerState where
  client : Option ClientStatus
  isListening : Bool
  handlersInstalled : Bool
  listeners : Registry
deriving DecidableEq, Repr

/-- The constructor: this.client = null, this.isListening = false,
this.listeners = new Map(). -/
def initialState : ListenerState := ⟨none, false, false, []⟩

/-- Outcomes offered by the outside world to one connect() sequence:
whether the TCP connect, the DDL of setupTriggers, and the LISTEN query
succeed. -/
structure Env where
  connectOk : Bool
  setupOk : Bool
  listenOk : Bool
deriving DecidableEq, Repr

/-- Externally visible effects of the listener, in program order.
connectAttempt marks entry into the body of connect();
publish t would mark an emit of a bus event on topic t (recorded so
that its absence from failure paths is expressible). -/
inductive Action where
  | connectAttempt
  | installFunction
  | installTrigger
  | listen
  | unlisten
  | notifyTest
  | endClient
  | wait (ms : Nat)
  | scheduleReconnect (ms : Nat)
  | publish (t : Topic)
  | logError
deriving DecidableEq, Repr

/-- Method connect(): build a new Client and await client.connect(); on
success run setupTriggers, then startListening (LISTEN message_changes,
set isListening = true, register the notification / error / end handlers).
Any failure is logged and rethrown to the caller; no retry is scheduled
here, and a failure before LISTEN succeeds leaves isListening untouched
and the handlers unregistered. -/
def connect (env : Env) (s : ListenerState) :
    ListenerState × List Action × Except String Unit :=
  if env.connectOk then
    let s1 := { s with client := some .live }
    if env.setupOk then
      if env.listenOk then
        ({ s1 with isListening := true, handlersInstalled := true },
         [.connectAttempt, .installFunction, .installTrigger, .listen],
         .ok ())
      else
        (s1, [.connectAttempt, .installFunction, .installTrigger, .logError],
         .error "listen failed")
    else
      (s1, [.connectAttempt, .logError], .error "setup failed")
  else
    ({ s with client := some .dead }, [.connectAttempt, .logError],
     .error "connect failed")

/-- Method reconnect(): if (this.isListening) return; otherwise end any
existing client, wait 5000 ms and run connect(); if that connect rejects,
log and schedule another reconnect after 10000 ms. (The end event that
client.end() itself raises during this cleanup is not re-dispatched as a
separate handler invocation here; it re-enters the same isListening
guard.) -/
def reconnect (env : Env) (s : ListenerState) : ListenerState × List Action :=
  if s.isListening then (s, [])
  else
    let endActs : List Action := if s.client.isSome then [.endClient] else []
    let s1 : ListenerState :=
      match s.client with
      | some _ => { s with client := some .dead }
      | none => s
    match connect env s1 with
    | (s2, acts, .ok _) => (s2, endActs ++ [.wait 5000] ++ acts)
    | (s2, acts, .error _) =>
      (s2, endActs ++ [.wait 5000] ++ acts ++ [.logError, .scheduleReconnect 10000])

/-- The handler registered by startListening for the error event of the
client: log the error and call reconnect(). It only exists (and so only
runs) once startListening has registered it. Note it does not clear
isListening before calling reconnect. -/
def onErrorEvent (env : Env) (s : ListenerState) : ListenerState × List Action :=
  if s.handlersInstalled then
    let (s2, acts) := reconnect env s
    (s2, .logError :: acts)
  else (s, [])

/-- The handler registered by startListening for the end event of the
client: log, set isListening = false, and call reconnect(). -/
def onEndEvent (env : Env) (s : ListenerState) : ListenerState × List Action :=
  if s.handlersInstalled then reconnect env { s with isListening := false }
  else (s, [])

/-- Method handleNotification(msg): JSON.parse the payload inside
try/catch; on parse failure log and return (the frame is dropped, nothing
else happens); on success emit('message_change', payload) on the bus.
parse stands for JSON.parse, throws for the behaviour of the registered
callbacks; the second component is the delivery trace of the emit. -/
def handleNotification {α : Type} (parse : String → Option α)
    (throws : CallbackId → Bool) (s : ListenerState) (payload : String) :
    ListenerState × List (CallbackId × α × Bool) :=
  match parse payload with
  | none => (s, [])
  | some v =>
    let (reg2, trace) := emit s.listeners "message_change" throws v
    ({ s with listeners := reg2 }, trace)

/-- Method disconnect(): if (this.client) { await query(UNLISTEN);
await client.end(); this.isListening = false } inside try/catch that only
logs. On a dead client the UNLISTEN query rejects, so the catch runs
before isListening is assigned. Nothing unregisters the end handler and
this.client is never set back to null. -/
def disconnect (s : ListenerState) : ListenerState × List Action :=
  match s.client with
  | none => (s, [])
  | some .dead => (s, [.logError])
  | some .live =>
    ({ s with client := some .dead, isListening := false },
     [.unlisten, .endClient])

/-- Method testNotification(): await this.client.query(SELECT pg_notify
with the TEST payload) inside try/catch that only logs; there is no state
check, and an absent client (null property access) or a rejecting query is
caught, so the method itself always resolves successfully. -/
def testNotification (s : ListenerState) :
    ListenerState × List Action × Except String Unit :=
  match s.client with
  | none => (s, [.logError], .ok ())
  | some .dead => (s, [.logError], .ok ())
  | some .live => (s, [.notifyTest], .ok ())

/-! ### Helper lemmas about the subscription registry -/

theorem hasEvent_cons (p : Topic × List CallbackId) (reg : Registry) (e : Topic) :
    hasEvent (p :: reg) e = (p.1 == e || hasEvent reg e) := by
  simp [hasEvent]

theorem getListeners_cons (p : Topic × List CallbackId) (reg : Registry) (e : Topic) :
    getListeners (p :: reg) e = if p.1 == e then p.2 else getListeners reg e := by
  cases h : p.1 == e <;> simp [getListeners, List.find?_cons, h]

theorem setEntry_cons (p : Topic × List CallbackId) (reg : Registry) (e : Topic)
    (l : List CallbackId) :
    setEntry (p :: reg) e l =
      if p.1 == e then (p.1, l) :: reg else p :: setEntry reg e l := rfl

theorem getListeners_of_hasEvent_false (reg : Registry) (e : Topic)
    (h : hasEvent reg e = false) : getListeners reg e = [] := by
  induction reg with
  | nil => rfl
  | cons p rest ih =>
    rw [hasEvent_cons, Bool.or_eq_false_iff] at h
    rw [getListeners_cons, if_neg (by simp [h.1]), ih h.2]

theorem getListeners_setEntry_self (reg : Registry) (e : Topic) (l : List CallbackId)
    (h : hasEvent reg e = true) : getListeners (setEntry reg e l) e = l := by
  induction reg with
  | nil => simp [hasEvent] at h
  | cons p rest ih =>
    rw [hasEvent_cons] at h
    rw [setEntry_cons]
    cases hpe : p.1 == e
    · rw [if_neg (by simp [hpe]), getListeners_cons, if_neg (by simp [hpe])]
      exact ih (by simpa [hpe] using h)
    · rw [if_pos (by simp_all), getListeners_cons]
      simp [hpe]

theorem getListeners_setEntry_ne (reg : Registry) (e e' : Topic) (l : List CallbackId)
    (h : e' ≠ e) : getListeners (setEntry reg e l) e' = getListeners reg e' := by
  induction reg with
  | nil => rfl
  | cons p rest ih =>
    rw [setEntry_cons]
    cases hpe : p.1 == e
    · rw [if_neg (by simp [hpe]), getListeners_cons, getListeners_cons, ih]
    · rw [if_pos (by simp [hpe]), getListeners_cons, getListeners_cons]
      have hpe' : (p.1 == e') = false := by
        have : p.1 = e := by simpa using hpe
        simp [this, Ne.symm h]
      simp [hpe']

theorem setEntry_getListeners_self (reg : Registry) (e : Topic)
    (h : hasEvent reg e = true) : setEntry reg e (getListeners reg e) = reg := by
  induction reg with
  | nil => simp [hasEvent] at h
  | cons p rest ih =>
    rw [hasEvent_cons] at h
    rw [getListeners_cons, setEntry_cons]
    cases hpe : p.1 == e
    · rw [if_neg (by simp [hpe]), if_neg (by simp [hpe]), ih (by simpa [hpe] using h)]
    · rw [if_pos (by simp [hpe]), if_pos (by simp [hpe])]

theorem hasEvent_append_single (reg : Registry) (e : Topic) (l : List CallbackId) :
    hasEvent (reg ++ [(e, l)]) e = true := by
  simp [hasEvent]

theorem getListeners_append_single (reg : Registry) (e : Topic) (l : List CallbackId)
    (h : hasEvent reg e = false) : getListeners (reg ++ [(e, l)]) e = l := by
  induction reg with
  | nil => simp [getListeners, List.find?]
  | cons p rest ih =>
    rw [hasEvent_cons, Bool.or_eq_false_iff] at h
    rw [List.cons_append, getListeners_cons, if_neg (by simp [h.1]), ih h.2]

theorem getListeners_onEvent_self (reg : Registry) (e : Topic) (cb : CallbackId) :
    getListeners (onEvent reg e cb) e = getListeners reg e ++ [cb] := by
  unfold onEvent
  cases h : hasEvent reg e
  · simp only [Bool.false_eq_true, if_false]
    rw [getListeners_setEntry_self _ _ _ (hasEvent_append_single reg e []),
      getListeners_append_single reg e [] h, getListeners_of_hasEvent_false reg e h]
  · simp only [if_true]
    rw [getListeners_setEntry_self _ _ _ h]

theorem emitGo_eq_map {α : Type} (throws : CallbackId → Bool) (data : α) :
    ∀ l : List CallbackId, emitGo throws data l = l.map fun cb => (cb, data, throws cb)
  | [] => rfl
  | cb :: rest => by
    cases h : throws cb <;>
      simp [emitGo, h, emitGo_eq_map throws data rest]

theorem emit_trace {α : Type} (reg : Registry) (e : Topic) (throws : CallbackId → Bool)
    (data : α) :
    (emit reg e throws data).2 = (getListeners reg e).map fun cb => (cb, data, throws cb) := by
  unfold emit
  cases h : hasEvent reg e
  · simp [getListeners_of_hasEvent_false reg e h]
  · simp [emitGo_eq_map]

theorem emit_registry_unchanged {α : Type} (reg : Registry) (e : Topic)
    (throws : CallbackId → Bool) (data : α) : (emit reg e throws data).1 = reg := by
  unfold emit
  cases hasEvent reg e <;> simp

/-! ### Claim theorems -/

/-- Claim C1: emit delivers the event synchronously to exactly the callbacks
registered for the topic at publish time (the delivery trace is the stored
callback list, each entry paired with the published data and its throw flag,
so a throwing handler is caught and every subsequent handler still receives
the same event), the registry is left unchanged by emit, and registration
via onEvent appends, so stored order is registration order. -/
theorem emit_delivers_all_in_order {α : Type} (reg : Registry) (e : Topic)
    (throws : CallbackId → Bool) (data : α) (cb : CallbackId) :
    (emit reg e throws data).1 = reg ∧
    (emit reg e throws data).2 =
      ((getListeners reg e).map fun c => (c, data, throws c)) ∧
    getListeners (onEvent reg e cb) e = getListeners reg e ++ [cb] :=
  ⟨emit_registry_unchanged reg e throws data, emit_trace reg e throws data,
   getListeners_onEvent_self reg e cb⟩

/-- Claim C10: off removes at most the first matching registration of the
callback for the topic (List.erase semantics); when the callback is not
registered for the topic the whole registry is unchanged, and lookups for
every other topic are never affected. -/
theorem off_removes_at_most_first (reg : Registry) (e : Topic) (cb : CallbackId) :
    getListeners (off reg e cb) e = (getListeners reg e).erase cb ∧
    (cb ∉ getListeners reg e → off reg e cb = reg) ∧
    ∀ e', e' ≠ e → getListeners (off reg e cb) e' = getListeners reg e' := by
  refine ⟨?_, ?_, ?_⟩
  · unfold off
    cases h : hasEvent reg e
    · simp [getListeners_of_hasEvent_false reg e h, List.erase_nil]
    · simp [getListeners_setEntry_self _ _ _ h]
  · intro hmem
    unfold off
    cases h : hasEvent reg e
    · simp
    · simp [List.erase_of_not_mem hmem, setEntry_getListeners_self reg e h]
  · intro e' he
    unfold off
    cases h : hasEvent reg e
    · simp
    · simp [getListeners_setEntry_ne reg e e' _ he]

/-- Claim C10 witness: concrete instances of the three parts of
off_removes_at_most_first, with each hypothesis discharged. -/
theorem off_removes_at_most_first_witness :
    getListeners (off [("message_change", [1, 2, 1]), ("x", [3])] "message_change" 1)
        "message_change" = [2, 1] ∧
    off [("message_change", [1, 2])] "message_change" 5 = [("message_change", [1, 2])] ∧
    getListeners (off [("message_change", [1, 2]), ("x", [3])] "message_change" 1) "x"
      = [3] := by
  refine ⟨?_, ?_, ?_⟩
  · rw [(off_removes_at_most_first [("message_change", [1, 2, 1]), ("x", [3])]
      "message_change" 1).1]
    decide
  · exact (off_removes_at_most_first [("message_change", [1, 2])] "message_change" 5).2.1
      (by decide)
  · exact (off_removes_at_most_first [("message_change", [1, 2]), ("x", [3])]
      "message_change" 1).2.2 "x" (by decide)

/-- Claim C6: the UPDATE branch of notify_message_change emits exactly the
new-row fields (id, group_uuid, sender_uuid, content, file, created_date,
is_deleted) plus old_id, old_content, old_is_deleted taken from the old row
(the pre-image fields the spec calls previousId, previousContent,
previousIsDeleted), besides the operation and table tags; consequently the
payload shows old_is_deleted = false together with is_deleted = true exactly
when the statement is a soft-delete transition. -/
theorem update_payload_complete (oldRow newRow : MessageRow) :
    (notify_message_change (.update oldRow newRow)).map Prod.fst =
      ["operation", "table", "id", "group_uuid", "sender_uuid", "content",
       "file", "created_date", "is_deleted", "old_id", "old_content",
       "old_is_deleted"] ∧
    (notify_message_change (.update oldRow newRow)).lookup "operation"
      = some (.jstr "UPDATE") ∧
    (notify_message_change (.update oldRow newRow)).lookup "table"
      = some (.jstr "messages") ∧
    (notify_message_change (.update oldRow newRow)).lookup "id"
      = some (.jint newRow.id) ∧
    (notify_message_change (.update oldRow newRow)).lookup "group_uuid"
      = some (.jstr newRow.group_uuid) ∧
    (notify_message_change (.update oldRow newRow)).lookup "sender_uuid"
      = some (.jstr newRow.sender_uuid) ∧
    (notify_message_change (.update oldRow newRow)).lookup "content"
      = some (.jstr newRow.content) ∧
    (notify_message_change (.update oldRow newRow)).lookup "file"
      = some (jfile newRow.file) ∧
    (notify_message_change (.update oldRow newRow)).lookup "created_date"
      = some (.jstr newRow.created_date) ∧
    (notify_message_change (.update oldRow newRow)).lookup "is_deleted"
      = some (.jbool newRow.is_deleted) ∧
    (notify_message_change (.update oldRow newRow)).lookup "old_id"
      = some (.jint oldRow.id) ∧
    (notify_message_change (.update oldRow newRow)).lookup "old_content"
      = some (.jstr oldRow.content) ∧
    (notify_message_change (.update oldRow newRow)).lookup "old_is_deleted"
      = some (.jbool oldRow.is_deleted) ∧
    ((notify_message_change (.update oldRow newRow)).lookup "old_is_deleted"
        = some (.jbool false) ∧
      (notify_message_change (.update oldRow newRow)).lookup "is_deleted"
        = some (.jbool true) ↔
      oldRow.is_deleted = false ∧ newRow.is_deleted = true) := by
  simp [notify_message_change, updatePayload, List.lookup]

/-- Claim C7: the DELETE branch of notify_message_change emits only the
operation and table tags together with id, group_uuid and sender_uuid taken
from the old row; in particular the deleted row's content is absent. -/
theorem delete_payload_minimal (oldRow : MessageRow) :
    (notify_message_change (.delete oldRow)).map Prod.fst =
      ["operation", "table", "id", "group_uuid", "sender_uuid"] ∧
    (notify_message_change (.delete oldRow)).lookup "operation"
      = some (.jstr "DELETE") ∧
    (notify_message_change (.delete oldRow)).lookup "table"
      = some (.jstr "messages") ∧
    (notify_message_change (.delete oldRow)).lookup "id"
      = some (.jint oldRow.id) ∧
    (notify_message_change (.delete oldRow)).lookup "group_uuid"
      = some (.jstr oldRow.group_uuid) ∧
    (notify_message_change (.delete oldRow)).lookup "sender_uuid"
      = some (.jstr oldRow.sender_uuid) ∧
    (notify_message_change (.delete oldRow)).lookup "content" = none := by
  simp [notify_message_change, deletePayload, List.lookup]

/-- Helper for Claim C8: after any positive number of setupTriggers runs
from the clean schema, the schema holds exactly the one notify function and
the one trigger. -/
theorem iterateSetup_succ_fixed : ∀ m : Nat,
    iterateSetup (m + 1) =
      .ok ⟨["notify_message_change"], ["messages_notify_trigger"]⟩
  | 0 => by rfl
  | m + 1 => by
    show (match iterateSetup (m + 1) with
          | .ok s => setupTriggers s
          | .error e => .error e)
        = .ok ⟨["notify_message_change"], ["messages_notify_trigger"]⟩
    rw [iterateSetup_succ_fixed m]
    rfl

/-- Claim C8: running setupTriggers any positive number of times in a row
on the clean database never errors and leaves exactly one notification
function and exactly one trigger on the messages table, so each committed
row statement still produces exactly one notification; moreover
setupTriggers is idempotent on that resulting schema. -/
theorem setupTriggers_idempotent (n : Nat) (h : 1 ≤ n) :
    iterateSetup n = .ok ⟨["notify_message_change"], ["messages_notify_trigger"]⟩ ∧
    setupTriggers ⟨["notify_message_change"], ["messages_notify_trigger"]⟩ =
      .ok ⟨["notify_message_change"], ["messages_notify_trigger"]⟩ ∧
    notificationsPerStatement
      ⟨["notify_message_change"], ["messages_notify_trigger"]⟩ = 1 := by
  obtain ⟨m, rfl⟩ : ∃ m, n = m + 1 := ⟨n - 1, (Nat.succ_pred_eq_of_pos h).symm⟩
  exact ⟨iterateSetup_succ_fixed m, by rfl, rfl⟩

/-- Claim C8 witness: running the installer twice in a row from the clean
schema succeeds and leaves the single function and single trigger. -/
theorem setupTriggers_idempotent_witness :
    iterateSetup 2 = .ok ⟨["notify_message_change"], ["messages_notify_trigger"]⟩ :=
  (setupTriggers_idempotent 2 (by decide)).1

/-- The state a listener is in right after a fully successful connect()
from the constructor state: a live client, listening, handlers registered,
no subscriptions yet. -/
def listeningState : ListenerState := ⟨some .live, true, true, []⟩

/-- Claim C9: when any step of a first connect() from the constructor state
fails (TCP connect, trigger installation, or LISTEN), the error is rethrown
to the caller, no wait and no reconnect is scheduled, the listener is not in
the Listening state, and because the error and end handlers were never
registered, a later error or end signal on the failed client triggers
nothing either. -/
theorem connect_first_failure_propagates (env : Env)
    (h : env.connectOk = false ∨ env.setupOk = false ∨ env.listenOk = false) :
    (∃ msg, (connect env initialState).2.2 = .error msg) ∧
    (∀ ms, Action.scheduleReconnect ms ∉ (connect env initialState).2.1) ∧
    (∀ ms, Action.wait ms ∉ (connect env initialState).2.1) ∧
    (connect env initialState).1.isListening = false ∧
    (connect env initialState).1.handlersInstalled = false ∧
    (∀ env', onErrorEvent env' (connect env initialState).1 =
        ((connect env initialState).1, []) ∧
      onEndEvent env' (connect env initialState).1 =
        ((connect env initialState).1, [])) := by
  obtain ⟨c, st, l⟩ := env
  cases c <;> cases st <;> cases l <;>
    simp_all [connect, initialState, onErrorEvent, onEndEvent]

/-- Claim C9 witness: a failing TCP connect on the first attempt. -/
theorem connect_first_failure_propagates_witness :
    (∃ msg, (connect ⟨false, true, true⟩ initialState).2.2 = .error msg) ∧
    (connect ⟨false, true, true⟩ initialState).1.isListening = false :=
  ⟨(connect_first_failure_propagates ⟨false, true, true⟩ (Or.inl rfl)).1,
   (connect_first_failure_propagates ⟨false, true, true⟩ (Or.inl rfl)).2.2.2.1⟩

/-- Claim C2 counterexample: in the Listening state reached by a successful
connect, an error event on the connection runs reconnect, whose
isListening guard returns immediately: the state is unchanged and nothing
re-invokes connect, so an error event alone never starts a reconnect. -/
theorem error_event_while_listening_no_reconnect :
    listeningState = (connect ⟨true, true, true⟩ initialState).1 ∧
    onErrorEvent ⟨true, true, true⟩ listeningState =
      (listeningState, [Action.logError]) ∧
    Action.connectAttempt ∉ (onErrorEvent ⟨true, true, true⟩ listeningState).2 := by
  refine ⟨rfl, rfl, ?_⟩
  decide

/-- Claim C2 (amended): while Listening with handlers registered, an error
event is swallowed by the isListening guard in reconnect (state unchanged,
no reconnect started); an end event clears isListening and re-invokes the
full connect sequence; neither handler publishes anything to subscribers or
touches the registry; and reconnect called on any state still marked
listening does nothing, which is what prevents further attempts once
listening again. -/
theorem connection_failure_recovery (env : Env) (s : ListenerState)
    (hh : s.handlersInstalled = true) (hl : s.isListening = true)
    (hc : s.client = some .live) :
    onErrorEvent env s = (s, [Action.logError]) ∧
    Action.connectAttempt ∈ (onEndEvent env s).2 ∧
    (∀ t, Action.publish t ∉ (onErrorEvent env s).2) ∧
    (∀ t, Action.publish t ∉ (onEndEvent env s).2) ∧
    (onEndEvent env s).1.listeners = s.listeners ∧
    (∀ s', s'.isListening = true → reconnect env s' = (s', [])) := by
  obtain ⟨cl, il, hi, reg⟩ := s
  simp only at hh hl hc
  subst hh hl hc
  obtain ⟨c, st, l⟩ := env
  cases c <;> cases st <;> cases l <;>
    simp_all [onErrorEvent, onEndEvent, reconnect, connect]

/-- Claim C2 witness: the amended behaviour at the concrete Listening state
with an environment in which reconnection would succeed. -/
theorem connection_failure_recovery_witness :
    onErrorEvent ⟨true, true, true⟩ listeningState =
      (listeningState, [Action.logError]) ∧
    Action.connectAttempt ∈ (onEndEvent ⟨true, true, true⟩ listeningState).2 :=
  ⟨(connection_failure_recovery ⟨true, true, true⟩ listeningState rfl rfl rfl).1,
   (connection_failure_recovery ⟨true, true, true⟩ listeningState rfl rfl rfl).2.1⟩

/-- Claim C3 counterexample: starting from the Listening state, disconnect()
ends the client, but the end handler registered by startListening then runs
reconnect, whose guard passes because isListening is false; with a healthy
environment the listener is back to a live client in the Listening state,
and connect was re-entered — all without any new explicit connect() call. -/
theorem disconnect_then_auto_reconnect :
    (onEndEvent ⟨true, true, true⟩ (disconnect listeningState).1).1.isListening
      = true ∧
    (onEndEvent ⟨true, true, true⟩ (disconnect listeningState).1).1.client
      = some .live ∧
    Action.connectAttempt ∈
      (onEndEvent ⟨true, true, true⟩ (disconnect listeningState).1).2 := by
  decide

/-- Claim C3 (amended): disconnect() on a live connection issues UNLISTEN
and ends the client and clears isListening, but it suppresses nothing: the
end handler stays registered and this.client stays set, so the close event
raised by ending the connection re-invokes the full connect sequence
through reconnect, and with a healthy environment the listener re-enters
Listening with a reopened connection, without any new explicit connect()
call. -/
theorem disconnect_does_not_suppress_reconnect (env : Env) (s : ListenerState)
    (hc : s.client = some .live) (hh : s.handlersInstalled = true) :
    (disconnect s).2 = [Action.unlisten, Action.endClient] ∧
    (disconnect s).1.isListening = false ∧
    (disconnect s).1.client = some .dead ∧
    (disconnect s).1.handlersInstalled = true ∧
    Action.connectAttempt ∈ (onEndEvent env (disconnect s).1).2 ∧
    (env.connectOk = true → env.setupOk = true → env.listenOk = true →
      (onEndEvent env (disconnect s).1).1.isListening = true ∧
      (onEndEvent env (disconnect s).1).1.client = some ClientStatus.live) := by
  obtain ⟨cl, il, hi, reg⟩ := s
  simp only at hc hh
  subst hc hh
  obtain ⟨c, st, l⟩ := env
  cases c <;> cases st <;> cases l <;>
    simp_all [disconnect, onEndEvent, reconnect, connect]

/-- Claim C3 witness: the amended behaviour at the concrete Listening state
with a healthy environment. -/
theorem disconnect_does_not_suppress_reconnect_witness :
    (disconnect listeningState).1.isListening = false ∧
    Action.connectAttempt ∈
      (onEndEvent ⟨true, true, true⟩ (disconnect listeningState).1).2 :=
  ⟨(disconnect_does_not_suppress_reconnect ⟨true, true, true⟩ listeningState
      rfl rfl).2.1,
   (disconnect_does_not_suppress_reconnect ⟨true, true, true⟩ listeningState
      rfl rfl).2.2.2.2.1⟩

/-- Claim C4 counterexample: in the Disconnected constructor state (no
client), testNotification() publishes nothing and issues no NOTIFY, but it
does not fail either: the thrown null-access error is caught and logged and
the call resolves successfully, so no connection-not-ready error reaches
the caller. -/
theorem testNotification_disconnected_no_error :
    testNotification initialState = (initialState, [Action.logError], .ok ()) ∧
    Action.notifyTest ∉ (testNotification initialState).2.1 := by
  refine ⟨rfl, ?_⟩
  decide

/-- Claim C4 (amended): testNotification() checks no state at all: it
attempts the NOTIFY on whatever client handle is stored, so with a live
client it issues the synthetic TEST notify (whether or not isListening is
true), with a missing or dead client the failure is caught and logged and
nothing is sent; in every case the state is unchanged, nothing is published
on the bus, and the call resolves successfully rather than failing with a
connection-not-ready error. -/
theorem testNotification_no_state_check (s : ListenerState) :
    (testNotification s).1 = s ∧
    (testNotification s).2.2 = .ok () ∧
    (s.client = some .live → (testNotification s).2.1 = [Action.notifyTest]) ∧
    (s.client = none ∨ s.client = some .dead →
      (testNotification s).2.1 = [Action.logError]) ∧
    (∀ t, Action.publish t ∉ (testNotification s).2.1) := by
  obtain ⟨cl, il, hi, reg⟩ := s
  rcases cl with _ | st
  · simp [testNotification]
  · cases st <;> simp [testNotification]

/-- Claim C4 witness: the live-client and absent-client branches at
concrete states, hypotheses discharged. -/
theorem testNotification_no_state_check_witness :
    (testNotification listeningState).2.1 = [Action.notifyTest] ∧
    (testNotification initialState).2.1 = [Action.logError] :=
  ⟨(testNotification_no_state_check listeningState).2.2.1 rfl,
   (testNotification_no_state_check initialState).2.2.2.1 (Or.inl rfl)⟩

/-- Claim C5: a notification frame whose payload JSON.parse rejects is
logged and dropped: the listener state (client, isListening, handlers and
registry alike) is untouched and nothing is delivered; and a later frame
that parses fine is still delivered to every callback registered for
message_change, in order. -/
theorem handleNotification_malformed_dropped {α : Type}
    (parse : String → Option α) (throws : CallbackId → Bool)
    (s : ListenerState) (p1 : String) (h : parse p1 = none) :
    handleNotification parse throws s p1 = (s, []) ∧
    (∀ p2 v2, parse p2 = some v2 →
      (handleNotification parse throws
          (handleNotification parse throws s p1).1 p2).2 =
        (getListeners s.listeners "message_change").map
          fun cb => (cb, v2, throws cb)) := by
  have h1 : handleNotification parse throws s p1 = (s, []) := by
    simp [handleNotification, h]
  refine ⟨h1, ?_⟩
  intro p2 v2 h2
  rw [h1]
  simp [handleNotification, h2, emit_trace]

/-- Stand-in for JSON.parse in the C5 witness: one string parses, all
others reject. -/
def sampleParse : String → Option Nat :=
  fun str => if str = "\x7b\"operation\": \"TEST\"\x7d" then some 7 else none

/-- A reachable state with a live listening connection and two callbacks
registered on the message_change topic. -/
def busyState : ListenerState := ⟨some .live, true, true, [("message_change", [1, 2])]⟩

/-- Claim C5 witness: a malformed frame leaves the busy state unchanged,
and the following valid frame is delivered to both registered callbacks in
order. -/
theorem handleNotification_malformed_dropped_witness :
    handleNotification sampleParse (fun _ => false) busyState "not json" =
      (busyState, []) ∧
    (handleNotification sampleParse (fun _ => false)
        (handleNotification sampleParse (fun _ => false) busyState "not json").1
        "\x7b\"operation\": \"TEST\"\x7d").2 = [(1, 7, false), (2, 7, false)] := by
  have h := handleNotification_malformed_dropped sampleParse (fun _ => false)
    busyState "not json" (by decide)
  refine ⟨h.1, ?_⟩
  rw [h.2 "\x7b\"operation\": \"TEST\"\x7d" 7 (by decide)]
  decide

end PostgresChatroom
